import Mathlib

/-!
Verification of the Spindlewrit project scaffolding generator against its
specification.  The Python sources under `src/project_generator/` are shallowly
embedded: paths are segment lists (mirroring `pathlib.Path` joins), the
filesystem is a map from paths to file contents plus a directory marker, and
fallible OS calls (`os.makedirs`, `open(..., 'w')`) are modelled with an
explicit fault environment so that exception paths of `generate_project` can be
analysed.  The external `cargo init` child process and the remote Gemma JSON
decoding are modelled as oracles (an exit code / stderr / file-effect record,
and an abstract decode function), since they are outside the repository.
-/

namespace Spindlewrit

/-- A filesystem path, as the list of its segments (a `pathlib.Path` built by
successive `/` joins; no normalisation is performed, mirroring the spec's
"the target path is used exactly as given"). -/
abbrev FPath := List String

/-- `models.ProjectType`: closed enumeration `python | rust | common`. -/
inductive ProjectType where
  | python
  | rust
  | common
deriving DecidableEq

/-- The string value of a `ProjectType` member (its `str` Enum value). -/
def ProjectType.value : ProjectType → String
  | .python => "python"
  | .rust => "rust"
  | .common => "common"

/-- `models.ProjectConfig`: the validated project specification.  `path` is
held as its segment list (the Python field is a string that `Path()` splits
into segments).  `additional_details` is accepted but never read by the
generator, so its entries are left abstract. -/
structure ProjectConfig where
  name : String
  description : String
  project_type : ProjectType
  path : FPath
  additional_details : Option (List (String × String)) := none

/-- `models.ProjectResponse`: the generation result. -/
structure ProjectResponse where
  success : Bool
  message : String
  project_path : Option FPath := none
  errors : Option (List String) := none

/-- State of the filesystem: file contents by path, and which directories
exist. -/
structure FS where
  files : FPath → Option String
  dirs : FPath → Bool

/-- The empty filesystem. -/
def emptyFS : FS := ⟨fun _ => none, fun _ => false⟩

/-- Fault injection for OS calls: `mkdirErr p` (resp. `writeErr p`) is the
exception text raised by `os.makedirs p` (resp. by opening `p` for writing),
or `none` when the call succeeds. -/
structure Faults where
  mkdirErr : FPath → Option String
  writeErr : FPath → Option String

/-- The fault-free environment: every OS call succeeds. -/
def noFaults : Faults := ⟨fun _ => none, fun _ => none⟩

/-- Faults that fail only the write of one specific file. -/
def failWriteOn (p : FPath) (msg : String) : Faults :=
  ⟨fun _ => none, fun q => if q = p then some msg else none⟩

/-- Record a file's content (the effect of `open(p, 'w'); f.write(c)`): the
previous content at `p`, if any, is replaced entirely. -/
def FS.setFile (fs : FS) (p : FPath) (c : String) : FS :=
  { fs with files := fun q => if q = p then some c else fs.files q }

/-- Mark a directory and all its ancestors as existing (the effect of a
successful `os.makedirs(p, exist_ok=True)`). -/
def FS.markDirs (fs : FS) (p : FPath) : FS :=
  { fs with dirs := fun q => if q.isPrefixOf p then true else fs.dirs q }

/-- A step of the generator: it either produces the next filesystem state, or
raises an exception text together with the state reached so far (Python
exceptions do not roll written files back). -/
abbrev GenM := Except (String × FS) FS

/-- `os.makedirs(p, exist_ok=True)`: never fails because `p` already exists;
creates `p` and all missing ancestors.  A failure is injected from the fault
environment. -/
def makedirs (F : Faults) (fs : FS) (p : FPath) : GenM :=
  match F.mkdirErr p with
  | some e => .error (e, fs)
  | none => .ok (fs.markDirs p)

/-- `ProjectGenerator._write_file`: creates the parent directory if needed,
then opens the file in `'w'` (overwrite) mode and writes `content`. -/
def write_file (F : Faults) (fs : FS) (p : FPath) (content : String) : GenM := do
  let fs1 ← makedirs F fs p.dropLast
  match F.writeErr p with
  | some e => .error (e, fs1)
  | none => .ok (fs1.setFile p content)

/-- Content of `setup.py` (the build manifest) templated with the project
name, exactly as the f-string in `_generate_python_project` renders it. -/
def setup_py_content (name : String) : String :=
  "from setuptools import setup, find_packages\n\nsetup(\n    name=\"" ++ name ++
    "\",\n    version=\"0.1.0\",\n    packages=find_packages(where=\"src\"),\n    package_dir=\x7b\"\": \"src\"\x7d,\n    install_requires=[],\n    python_requires=\">=3.8\",\n)"

/-- Python's `str.capitalize`: first character upper-cased, the rest
lower-cased. -/
def pyCapitalize (s : String) : String :=
  match s.data with
  | [] => ""
  | c :: rest => String.mk (c.toUpper :: rest.map Char.toLower)

/-- Content of the generated unit-test stub `src/tests/test_<name>.py`. -/
def test_stub_content (name : String) : String :=
  "import unittest\nfrom " ++ name ++ " import __version__\n\nclass Test" ++
    pyCapitalize name ++
    "(unittest.TestCase):\n    def test_version(self):\n        self.assertTrue(__version__)\n\nif __name__ == \x27__main__\x27:\n    unittest.main()\n"

/-- The kind-independent part of the README template in `_create_readme`. -/
def readme_base (name description ptype : String) : String :=
  "# " ++ name ++ "\n\n" ++ description ++
    "\n\n## Overview\n\nThis is a " ++ ptype ++
    " project created with the Project Generator tool.\n\n## Setup\n\n"

/-- The python-specific setup section appended to the README. -/
def python_readme_setup : String :=
  "\n1. Create and activate a virtual environment:\n   ```bash\n   python -m venv venv\n   source venv/bin/activate  # On Windows: venv\\Scripts\\activate\n   ```\n2. Install dependencies:\n   ```bash\n   pip install -r requirements.txt\n   ```\n"

/-- The rust-specific setup section appended to the README. -/
def rust_readme_setup : String :=
  "\n1. Build the project:\n   ```bash\n   cargo build\n   ```\n2. Run tests:\n   ```bash\n   cargo test\n   ```\n"

/-- The full README content produced by `_create_readme` for a given kind
label. -/
def readme_content (name description ptype : String) : String :=
  readme_base name description ptype ++
    (if ptype = "python" then python_readme_setup
     else if ptype = "rust" then rust_readme_setup
     else "")

/-- `ProjectGenerator._create_readme`: writes `README.md` under `path`. -/
def create_readme (F : Faults) (config : ProjectConfig) (path : FPath)
    (ptype : String) (fs : FS) : GenM :=
  write_file F fs (path ++ ["README.md"])
    (readme_content config.name config.description ptype)

/-- `ProjectGenerator._generate_python_project`, step for step. -/
def generate_python_project (F : Faults) (config : ProjectConfig)
    (path : FPath) (fs : FS) : GenM := do
  let srcDir := path ++ ["src"]
  let fs ← makedirs F fs srcDir
  let fs ← makedirs F fs (srcDir ++ [config.name])
  let fs ← makedirs F fs (srcDir ++ ["tests"])
  let fs ← write_file F fs (srcDir ++ [config.name, "__init__.py"]) ""
  let fs ← write_file F fs (srcDir ++ ["tests", "__init__.py"]) ""
  let fs ← write_file F fs (path ++ ["requirements.txt"]) "# Core dependencies\n"
  let fs ← write_file F fs (path ++ ["setup.py"]) (setup_py_content config.name)
  let fs ← create_readme F config path "python" fs
  let fs ← write_file F fs (srcDir ++ ["tests", "test_" ++ config.name ++ ".py"])
    (test_stub_content config.name)
  write_file F fs (srcDir ++ [config.name, "__version__.py"]) "__version__ = \"0.1.0\""

/-- Outcome of the external `cargo init --name <name>` child process: its exit
code, captured (decoded) standard error, and the files it creates relative to
its working directory.  The initializer is external to the repository, so its
file effect is an oracle. -/
structure CargoRun where
  exitCode : Nat
  stderr : String
  writes : List (List String × String)

/-- Apply the initializer's file effect under the target directory. -/
def applyCargoWrites (path : FPath) (ws : List (List String × String))
    (fs : FS) : FS :=
  ws.foldl (fun acc w => acc.setFile (path ++ w.1) w.2) fs

/-- `ProjectGenerator._generate_rust_project`: runs the initializer with
`check=True` (a non-zero exit raises `CalledProcessError`), which the source
catches and re-raises as
`"Failed to initialize Rust project: " + e.stderr.decode()`; on success it
writes the README. -/
def generate_rust_project (F : Faults) (cargo : CargoRun)
    (config : ProjectConfig) (path : FPath) (fs : FS) : GenM :=
  if cargo.exitCode = 0 then
    create_readme F config path "rust" (applyCargoWrites path cargo.writes fs)
  else
    .error ("Failed to initialize Rust project: " ++ cargo.stderr, fs)

/-- `ProjectGenerator._generate_common_project`. -/
def generate_common_project (F : Faults) (config : ProjectConfig)
    (path : FPath) (fs : FS) : GenM := do
  let fs ← makedirs F fs (path ++ ["src"])
  let fs ← makedirs F fs (path ++ ["docs"])
  let fs ← makedirs F fs (path ++ ["examples"])
  create_readme F config path "common" fs

/-- The `try` block of `ProjectGenerator.generate_project`: creates the
target directory, then dispatches on the project kind. -/
def generate_body (F : Faults) (cargo : CargoRun) (config : ProjectConfig)
    (fs : FS) : GenM := do
  let fs1 ← makedirs F fs config.path
  match config.project_type with
  | .python => generate_python_project F config config.path fs1
  | .rust => generate_rust_project F cargo config config.path fs1
  | .common => generate_common_project F config config.path fs1

/-- `ProjectGenerator.generate_project`: runs the body and catches every
exception, turning it into a failing `ProjectResponse` whose message and
single error entry carry the exception text.  (The success message
interpolates the `ProjectType` member; it is modelled by the member's string
value.) -/
def generate_project (F : Faults) (cargo : CargoRun) (config : ProjectConfig)
    (fs : FS) : ProjectResponse × FS :=
  match generate_body F cargo config fs with
  | .ok fs2 =>
      ({ success := true,
         message := "Successfully created " ++ config.project_type.value ++
           " project: " ++ config.name,
         project_path := some config.path }, fs2)
  | .error (e, fs2) =>
      ({ success := false,
         message := "Failed to create project: " ++ e,
         errors := some [e] }, fs2)

/-- `GemmaProjectClient._fetch_todo`: the URL of the HTTP GET issued for a
todo id, as the f-string `f"{self.todo_server_url}/api/todos/{todo_id}"`
renders it. -/
def fetch_todo_url (todo_server_url todo_id : String) : String :=
  todo_server_url ++ "/api/todos/" ++ todo_id

/-- The URL pattern the specification states for the task-store fetch:
`GET {base_url}/api/tasks/{id}`.  Modelled from the spec for comparison with
`fetch_todo_url` (the definition taken from the source). -/
def spec_fetch_task_url (base_url id : String) : String :=
  base_url ++ "/api/tasks/" ++ id

/-- The completion response as `generate_from_todo` inspects it: it reads the
`"function_call"` key (defaulting to an empty dict), so only that field is
modelled; the envelope is a JSON object whose `"arguments"` value, when
present, is a string. -/
structure GemmaResponse where
  function_call : Option (List (String × String))

/-- Steps 79-89 of `GemmaProjectClient.generate_from_todo`: the response
validation.  `decode` stands for `json.loads`, external to the repository;
`none` is a `json.JSONDecodeError`.  An absent or empty (falsy) envelope, or
one without an `"arguments"` key, raises the no-function-call error; a
decode failure is caught and re-raised as the invalid-JSON error; otherwise
the decoded object is returned unchanged. -/
def parse_gemma_response {J : Type} (decode : String → Option J)
    (resp : GemmaResponse) : Except String J :=
  match resp.function_call with
  | none => .error "Failed to get function call response from Gemma"
  | some fc =>
      if fc = [] then .error "Failed to get function call response from Gemma"
      else
        match fc.lookup "arguments" with
        | none => .error "Failed to get function call response from Gemma"
        | some args =>
            match decode args with
            | none => .error "Invalid JSON response from Gemma function call"
            | some j => .ok j

/-- Python `str.lower`, on the character sequence. -/
def pyLower (s : String) : String := String.mk (s.data.map Char.toLower)

/-- The regex class `\s`, on its ASCII subset (space, tab, newline, carriage
return, vertical tab, form feed). -/
def isPyWs (c : Char) : Bool :=
  c == ' ' || c == '\t' || c == '\n' || c == '\r' || c == '\x0b' || c == '\x0c'

/-- Membership in the class `[a-z0-9\s-]` kept by the slug's strip step. -/
def keepSlugChar (c : Char) : Bool :=
  c.isLower || c.isDigit || isPyWs c || c == '-'

/-- `re.sub(r'\s+', '-', ·)`: each maximal whitespace run becomes a single
hyphen.  The Boolean records whether the previous character was whitespace. -/
def collapseWsAux : Bool → List Char → List Char
  | _, [] => []
  | prevWs, c :: rest =>
      if isPyWs c then
        if prevWs then collapseWsAux true rest
        else '-' :: collapseWsAux true rest
      else c :: collapseWsAux false rest

/-- The slug pipeline of `MockGemmaProjectClient._call_gemma_function`:
lower-case, strip characters outside `[a-z0-9\s-]`, collapse whitespace runs
to single hyphens, truncate to 30 characters. -/
def mock_slug (description : String) : String :=
  String.mk ((collapseWsAux false ((pyLower description).data.filter keepSlugChar)).take 30)

/-- The mock's project name: the slug when non-empty, else the placeholder
`f"generated-project-{hash(description) % 1000}"`.  Python's built-in `hash`
on strings is salted per process (`PYTHONHASHSEED`), so it enters the model
as the parameter `pyHash`. -/
def mock_project_name (pyHash : String → Nat) (description : String) : String :=
  let name := mock_slug description
  if name = "" then "generated-project-" ++ toString (pyHash description % 1000)
  else name

/-- Group 1 of `re.search(r"<marker>(.*?)(?:\n|$)", s)`: the characters after
the first occurrence of the marker, up to the first newline or the end. -/
def findMarker (marker : List Char) : List Char → Option (List Char)
  | [] => none
  | c :: rest =>
      if marker.isPrefixOf (c :: rest) then some ((c :: rest).drop marker.length)
      else findMarker marker rest

/-- Extract the line following `marker` in `s`, if the marker occurs. -/
def extract_after (marker s : String) : Option String :=
  (findMarker marker.data s.data).map
    (fun l => String.mk (l.takeWhile (fun c => c ≠ '\n')))

/-- Whether `sub` occurs as a contiguous run inside `l`. -/
def listIsInfixOf (sub : List Char) : List Char → Bool
  | [] => sub.isEmpty
  | c :: rest => sub.isPrefixOf (c :: rest) || listIsInfixOf sub rest

/-- Python's `sub in s` substring test. -/
def strContains (s sub : String) : Bool := listIsInfixOf sub.data s.data

/-- The mock's keyword sniffing for `project_type`. -/
def mock_project_type (description : String) : String :=
  let d := pyLower description
  if strContains d "rust" || strContains d "cargo" || strContains d "rustc" then
    "rust"
  else if strContains d "web" || strContains d "html" || strContains d "css" ||
      strContains d "js" then
    "common"
  else "python"

/-- The fields the mock client serialises (via `json.dumps`) into the
function-call arguments; `json.dumps` itself is deterministic on a fixed
dict, so the serialised output is determined by this record. -/
structure MockFunctionArgs where
  name : String
  description : String
  project_type : String
  dependencies : List String
  testing_framework : String
  generated_by : String
deriving DecidableEq

/-- `MockGemmaProjectClient._call_gemma_function`: extracts the description
from the prompt (the `Project:` line is also extracted by the source but
never used), derives name and kind, and fills the fixed illustrative
details. -/
def mock_call_gemma_function (pyHash : String → Nat) (prompt : String) :
    MockFunctionArgs :=
  let description := (extract_after "Description: " prompt).getD
    "AI-Generated Test Project"
  let name := mock_project_name pyHash description
  let ptype := mock_project_type description
  { name := name,
    description := description,
    project_type := ptype,
    dependencies := if ptype = "python" then ["pytest", "requests"] else [],
    testing_framework := if ptype = "python" then "pytest" else "cargo test",
    generated_by := "spindlewrit_mock_client" }

/-- `GemmaProjectClient._create_project_prompt`: the instruction text built
from the fetched record's description, grouping label, and rendered metadata
block (`json.dumps(metadata, indent=2)` when metadata is non-empty, else the
literal no-context marker; the rendered block enters as a parameter since
`json.dumps` is external). -/
def create_project_prompt (description project metadataBlock : String) : String :=
  "\n        Generate a project structure based on the following TODO item:\n        \n        Description: " ++
    description ++ "\n        Project: " ++ project ++
    "\n        \n        Additional context:\n        " ++ metadataBlock ++
    "\n        \n        Your task is to determine:\n        1. An appropriate project name (in kebab-case format)\n        2. A concise project description\n        3. The most suitable project type (python, rust, or common)\n        4. Any additional details needed for the project setup\n        \n        Please use the function calling to provide structured output.\n        "

/-- `sub` occurs byte-for-byte (as a contiguous character run) inside `s`. -/
def containsStr (s sub : String) : Prop :=
  ∃ a b : List Char, s.data = a ++ sub.data ++ b

/-- The seven files `_generate_python_project` writes, in write order. -/
def python_artifact_paths (name : String) (path : FPath) : List FPath :=
  [path ++ ["src", name, "__init__.py"],
   path ++ ["src", "tests", "__init__.py"],
   path ++ ["requirements.txt"],
   path ++ ["setup.py"],
   path ++ ["README.md"],
   path ++ ["src", "tests", "test_" ++ name ++ ".py"],
   path ++ ["src", name, "__version__.py"]]

/-- Every file a successful generation can touch, per kind (for rust this
includes the external initializer's writes). -/
def generated_file_paths (t : ProjectType) (cargo : CargoRun) (name : String)
    (path : FPath) : List FPath :=
  match t with
  | .python => python_artifact_paths name path
  | .rust => cargo.writes.map (fun w => path ++ w.1) ++ [path ++ ["README.md"]]
  | .common => [path ++ ["README.md"]]

/-- The filesystem after a fault-free run of `_generate_python_project`. -/
def pyFS (name description : String) (path : FPath) (fs : FS) : FS :=
  let f := ((fs.markDirs (path ++ ["src"])).markDirs
    (path ++ ["src", name])).markDirs (path ++ ["src", "tests"])
  let f := (f.markDirs (path ++ ["src", name, "__init__.py"]).dropLast).setFile
    (path ++ ["src", name, "__init__.py"]) ""
  let f := (f.markDirs (path ++ ["src", "tests", "__init__.py"]).dropLast).setFile
    (path ++ ["src", "tests", "__init__.py"]) ""
  let f := (f.markDirs (path ++ ["requirements.txt"]).dropLast).setFile
    (path ++ ["requirements.txt"]) "# Core dependencies\n"
  let f := (f.markDirs (path ++ ["setup.py"]).dropLast).setFile
    (path ++ ["setup.py"]) (setup_py_content name)
  let f := (f.markDirs (path ++ ["README.md"]).dropLast).setFile
    (path ++ ["README.md"]) (readme_content name description "python")
  let f := (f.markDirs (path ++ ["src", "tests", "test_" ++ name ++ ".py"]).dropLast).setFile
    (path ++ ["src", "tests", "test_" ++ name ++ ".py"]) (test_stub_content name)
  (f.markDirs (path ++ ["src", name, "__version__.py"]).dropLast).setFile
    (path ++ ["src", name, "__version__.py"]) "__version__ = \"0.1.0\""

/-- The filesystem after a fault-free, exit-zero run of
`_generate_rust_project`. -/
def rustFS (cargo : CargoRun) (name description : String) (path : FPath)
    (fs : FS) : FS :=
  ((applyCargoWrites path cargo.writes fs).markDirs
      (path ++ ["README.md"]).dropLast).setFile
    (path ++ ["README.md"]) (readme_content name description "rust")

/-- The filesystem after a fault-free run of `_generate_common_project`. -/
def commonFS (name description : String) (path : FPath) (fs : FS) : FS :=
  let f := ((fs.markDirs (path ++ ["src"])).markDirs
    (path ++ ["docs"])).markDirs (path ++ ["examples"])
  (f.markDirs (path ++ ["README.md"]).dropLast).setFile
    (path ++ ["README.md"]) (readme_content name description "common")

/-- A prompt as `_create_project_prompt` renders it for a fetched record whose
description is `"!!!"` (a description whose slug strips to empty). -/
def demo_prompt : String :=
  create_project_prompt "!!!" "demo-project" "No additional context provided."

/-! ### Helper lemmas -/

theorem bind_ok {α β : Type} {x : Except (String × FS) α}
    {f : α → Except (String × FS) β} {b : β}
    (h : (x >>= f) = .ok b) : ∃ a, x = .ok a ∧ f a = .ok b := by
  cases x with
  | error e => exact absurd h (by simp [Bind.bind, Except.bind])
  | ok a => exact ⟨a, rfl, by simpa [Bind.bind, Except.bind] using h⟩

theorem makedirs_ok {F : Faults} {fs : FS} {p : FPath} {fs' : FS}
    (h : makedirs F fs p = .ok fs') : fs' = fs.markDirs p := by
  cases hm : F.mkdirErr p <;> simp [makedirs, hm] at h
  exact h.symm

theorem write_file_ok {F : Faults} {fs : FS} {p : FPath} {c : String} {fs' : FS}
    (h : write_file F fs p c = .ok fs') :
    fs' = (fs.markDirs p.dropLast).setFile p c := by
  unfold write_file at h
  obtain ⟨a, h1, h2⟩ := bind_ok h
  have := makedirs_ok h1
  subst this
  cases hw : F.writeErr p <;> simp [hw] at h2
  exact h2.symm

theorem gen_python_ok {F : Faults} {config : ProjectConfig} {path : FPath}
    {fs fs' : FS} (h : generate_python_project F config path fs = .ok fs') :
    fs' = pyFS config.name config.description path fs := by
  unfold generate_python_project at h
  obtain ⟨a1, h1, h⟩ := bind_ok h
  obtain ⟨a2, h2, h⟩ := bind_ok h
  obtain ⟨a3, h3, h⟩ := bind_ok h
  obtain ⟨a4, h4, h⟩ := bind_ok h
  obtain ⟨a5, h5, h⟩ := bind_ok h
  obtain ⟨a6, h6, h⟩ := bind_ok h
  obtain ⟨a7, h7, h⟩ := bind_ok h
  obtain ⟨a8, h8, h⟩ := bind_ok h
  obtain ⟨a9, h9, h⟩ := bind_ok h
  have e1 := makedirs_ok h1; subst e1
  have e2 := makedirs_ok h2; subst e2
  have e3 := makedirs_ok h3; subst e3
  have e4 := write_file_ok h4; subst e4
  have e5 := write_file_ok h5; subst e5
  have e6 := write_file_ok h6; subst e6
  have e7 := write_file_ok h7; subst e7
  have e8 := write_file_ok (h8 : create_readme F config path "python" _ = .ok a8)
  subst e8
  have e9 := write_file_ok h9; subst e9
  have e10 := write_file_ok h
  subst e10
  simp [pyFS, List.append_assoc]

theorem gen_rust_ok {F : Faults} {cargo : CargoRun} {config : ProjectConfig}
    {path : FPath} {fs fs' : FS}
    (h : generate_rust_project F cargo config path fs = .ok fs') :
    cargo.exitCode = 0 ∧
      fs' = rustFS cargo config.name config.description path fs := by
  unfold generate_rust_project at h
  by_cases hz : cargo.exitCode = 0
  · simp only [hz, if_pos rfl] at h
    exact ⟨hz, by simpa [rustFS] using write_file_ok h⟩
  · simp [hz] at h

theorem gen_common_ok {F : Faults} {config : ProjectConfig} {path : FPath}
    {fs fs' : FS} (h : generate_common_project F config path fs = .ok fs') :
    fs' = commonFS config.name config.description path fs := by
  unfold generate_common_project at h
  obtain ⟨a1, h1, h⟩ := bind_ok h
  obtain ⟨a2, h2, h⟩ := bind_ok h
  obtain ⟨a3, h3, h⟩ := bind_ok h
  have e1 := makedirs_ok h1; subst e1
  have e2 := makedirs_ok h2; subst e2
  have e3 := makedirs_ok h3; subst e3
  have e4 := write_file_ok (h : write_file F _ _ _ = .ok fs')
  subst e4
  simp [commonFS]

theorem generate_project_ok {F : Faults} {cargo : CargoRun}
    {config : ProjectConfig} {fs fs2 : FS}
    (hb : generate_body F cargo config fs = .ok fs2) :
    generate_project F cargo config fs =
      ({ success := true,
         message := "Successfully created " ++ config.project_type.value ++
           " project: " ++ config.name,
         project_path := some config.path }, fs2) := by
  simp [generate_project, hb]

theorem generate_project_err {F : Faults} {cargo : CargoRun}
    {config : ProjectConfig} {fs fs2 : FS} {e : String}
    (hb : generate_body F cargo config fs = .error (e, fs2)) :
    generate_project F cargo config fs =
      ({ success := false,
         message := "Failed to create project: " ++ e,
         errors := some [e] }, fs2) := by
  simp [generate_project, hb]

theorem gen_python_noFaults (F : Faults) (config : ProjectConfig) (path : FPath)
    (fs : FS) (hm : ∀ p, F.mkdirErr p = none) (hw : ∀ p, F.writeErr p = none) :
    generate_python_project F config path fs =
      .ok (pyFS config.name config.description path fs) := by
  simp [generate_python_project, write_file, create_readme, makedirs, hm, hw,
    pyFS, Bind.bind, Except.bind, List.append_assoc]

theorem gen_rust_noFaults (F : Faults) (cargo : CargoRun)
    (config : ProjectConfig) (path : FPath) (fs : FS)
    (hm : ∀ p, F.mkdirErr p = none) (hw : ∀ p, F.writeErr p = none)
    (hz : cargo.exitCode = 0) :
    generate_rust_project F cargo config path fs =
      .ok (rustFS cargo config.name config.description path fs) := by
  simp [generate_rust_project, hz, create_readme, write_file, makedirs, hm, hw,
    rustFS, Bind.bind, Except.bind]

theorem gen_rust_err (F : Faults) (cargo : CargoRun) (config : ProjectConfig)
    (path : FPath) (fs : FS) (hz : cargo.exitCode ≠ 0) :
    generate_rust_project F cargo config path fs =
      .error ("Failed to initialize Rust project: " ++ cargo.stderr, fs) := by
  simp [generate_rust_project, hz]

theorem gen_common_noFaults (F : Faults) (config : ProjectConfig) (path : FPath)
    (fs : FS) (hm : ∀ p, F.mkdirErr p = none) (hw : ∀ p, F.writeErr p = none) :
    generate_common_project F config path fs =
      .ok (commonFS config.name config.description path fs) := by
  simp [generate_common_project, create_readme, write_file, makedirs, hm, hw,
    commonFS, Bind.bind, Except.bind]

theorem append_ne_append {l : List String} {a b : List String} (h : a ≠ b) :
    l ++ a ≠ l ++ b := fun he => h (List.append_cancel_left he)

theorem test_py_ne_init (n : String) : ("test_" ++ n ++ ".py") ≠ "__init__.py" := by
  intro h
  have hd : ('t' :: 'e' :: 's' :: 't' :: '_' :: (n.data ++ ".py".data)) =
      ('_' :: '_' :: 'i' :: 'n' :: 'i' :: 't' :: '_' :: '_' :: '.' :: 'p' :: 'y' :: []) :=
    congrArg String.data h
  injection hd with h1 _
  exact absurd h1 (by decide)

theorem test_py_ne_version (n : String) : ("test_" ++ n ++ ".py") ≠ "__version__.py" := by
  intro h
  have hd : ('t' :: 'e' :: 's' :: 't' :: '_' :: (n.data ++ ".py".data)) =
      "__version__.py".data :=
    congrArg String.data h
  injection hd with h1 _
  exact absurd h1 (by decide)

theorem pyFS_readme (n d : String) (path : FPath) (fs : FS) :
    (pyFS n d path fs).files (path ++ ["README.md"]) =
      some (readme_content n d "python") := by
  have h1 : path ++ ["README.md"] ≠ path ++ ["src", n, "__version__.py"] :=
    append_ne_append (by simp)
  have h2 : path ++ ["README.md"] ≠ path ++ ["src", "tests", "test_" ++ n ++ ".py"] :=
    append_ne_append (by simp)
  simp [pyFS, FS.setFile, FS.markDirs, h1, h2]

theorem pyFS_version (n d : String) (path : FPath) (fs : FS) :
    (pyFS n d path fs).files (path ++ ["src", n, "__version__.py"]) =
      some "__version__ = \"0.1.0\"" := by
  simp [pyFS, FS.setFile, FS.markDirs]

theorem pyFS_test_stub (n d : String) (path : FPath) (fs : FS) :
    (pyFS n d path fs).files (path ++ ["src", "tests", "test_" ++ n ++ ".py"]) =
      some (test_stub_content n) := by
  have h1 : path ++ ["src", "tests", "test_" ++ n ++ ".py"] ≠
      path ++ ["src", n, "__version__.py"] := by
    refine append_ne_append ?_
    simp only [ne_eq, List.cons.injEq]
    rintro ⟨-, -, h, -⟩
    exact test_py_ne_version n h
  simp [pyFS, FS.setFile, FS.markDirs, h1]

theorem pyFS_setup (n d : String) (path : FPath) (fs : FS) :
    (pyFS n d path fs).files (path ++ ["setup.py"]) =
      some (setup_py_content n) := by
  have h1 : path ++ ["setup.py"] ≠ path ++ ["src", n, "__version__.py"] :=
    append_ne_append (by simp)
  have h2 : path ++ ["setup.py"] ≠ path ++ ["src", "tests", "test_" ++ n ++ ".py"] :=
    append_ne_append (by simp)
  have h3 : path ++ ["setup.py"] ≠ path ++ ["README.md"] :=
    append_ne_append (by simp)
  simp [pyFS, FS.setFile, FS.markDirs, h1, h2, h3]

theorem pyFS_requirements (n d : String) (path : FPath) (fs : FS) :
    (pyFS n d path fs).files (path ++ ["requirements.txt"]) =
      some "# Core dependencies\n" := by
  have h1 : path ++ ["requirements.txt"] ≠ path ++ ["src", n, "__version__.py"] :=
    append_ne_append (by simp)
  have h2 : path ++ ["requirements.txt"] ≠
      path ++ ["src", "tests", "test_" ++ n ++ ".py"] :=
    append_ne_append (by simp)
  have h3 : path ++ ["requirements.txt"] ≠ path ++ ["README.md"] :=
    append_ne_append (by simp)
  have h4 : path ++ ["requirements.txt"] ≠ path ++ ["setup.py"] :=
    append_ne_append (by simp)
  simp [pyFS, FS.setFile, FS.markDirs, h1, h2, h3, h4]

theorem pyFS_tests_init (n d : String) (path : FPath) (fs : FS) :
    (pyFS n d path fs).files (path ++ ["src", "tests", "__init__.py"]) =
      some "" := by
  have h1 : path ++ ["src", "tests", "__init__.py"] ≠
      path ++ ["src", n, "__version__.py"] := by
    refine append_ne_append ?_
    simp only [ne_eq, List.cons.injEq]
    rintro ⟨-, -, h, -⟩
    exact absurd h (by decide)
  have h2 : path ++ ["src", "tests", "__init__.py"] ≠
      path ++ ["src", "tests", "test_" ++ n ++ ".py"] := by
    refine append_ne_append ?_
    simp only [ne_eq, List.cons.injEq]
    rintro ⟨-, -, h, -⟩
    exact test_py_ne_init n h.symm
  have h3 : path ++ ["src", "tests", "__init__.py"] ≠ path ++ ["README.md"] :=
    append_ne_append (by simp)
  have h4 : path ++ ["src", "tests", "__init__.py"] ≠ path ++ ["setup.py"] :=
    append_ne_append (by simp)
  have h5 : path ++ ["src", "tests", "__init__.py"] ≠ path ++ ["requirements.txt"] :=
    append_ne_append (by simp)
  simp [pyFS, FS.setFile, FS.markDirs, h1, h2, h3, h4, h5]

theorem pyFS_name_init (n d : String) (path : FPath) (fs : FS) :
    (pyFS n d path fs).files (path ++ ["src", n, "__init__.py"]) = some "" := by
  have h1 : path ++ ["src", n, "__init__.py"] ≠
      path ++ ["src", n, "__version__.py"] := by
    refine append_ne_append ?_
    simp only [ne_eq, List.cons.injEq]
    rintro ⟨-, -, h, -⟩
    exact absurd h (by decide)
  have h2 : path ++ ["src", n, "__init__.py"] ≠
      path ++ ["src", "tests", "test_" ++ n ++ ".py"] := by
    refine append_ne_append ?_
    simp only [ne_eq, List.cons.injEq]
    rintro ⟨-, -, h, -⟩
    exact test_py_ne_init n h.symm
  have h3 : path ++ ["src", n, "__init__.py"] ≠ path ++ ["README.md"] :=
    append_ne_append (by simp)
  have h4 : path ++ ["src", n, "__init__.py"] ≠ path ++ ["setup.py"] :=
    append_ne_append (by simp)
  have h5 : path ++ ["src", n, "__init__.py"] ≠ path ++ ["requirements.txt"] :=
    append_ne_append (by simp)
  by_cases h6 : path ++ ["src", n, "__init__.py"] = path ++ ["src", "tests", "__init__.py"]
  · rw [h6]
    exact pyFS_tests_init n d path fs
  · simp [pyFS, FS.setFile, FS.markDirs, h1, h2, h3, h4, h5, h6]

theorem pyFS_files_outside (n d : String) (path : FPath) (fs : FS) (p : FPath)
    (hp : p ∉ python_artifact_paths n path) :
    (pyFS n d path fs).files p = fs.files p := by
  simp only [python_artifact_paths, List.mem_cons, List.not_mem_nil, or_false,
    not_or] at hp
  obtain ⟨h1, h2, h3, h4, h5, h6, h7⟩ := hp
  simp [pyFS, FS.setFile, FS.markDirs, h1, h2, h3, h4, h5, h6, h7]

theorem pyFS_dirs_true (n d : String) (path : FPath) (fs : FS) (q : FPath)
    (hq : fs.dirs q = true) : (pyFS n d path fs).dirs q = true := by
  simp [pyFS, FS.setFile, FS.markDirs, hq]

theorem commonFS_readme (n d : String) (path : FPath) (fs : FS) :
    (commonFS n d path fs).files (path ++ ["README.md"]) =
      some (readme_content n d "common") := by
  simp [commonFS, FS.setFile, FS.markDirs]

theorem commonFS_files_outside (n d : String) (path : FPath) (fs : FS)
    (p : FPath) (hp : p ≠ path ++ ["README.md"]) :
    (commonFS n d path fs).files p = fs.files p := by
  simp [commonFS, FS.setFile, FS.markDirs, hp]

theorem commonFS_dirs_true (n d : String) (path : FPath) (fs : FS) (q : FPath)
    (hq : fs.dirs q = true) : (commonFS n d path fs).dirs q = true := by
  simp [commonFS, FS.setFile, FS.markDirs, hq]

theorem applyCargoWrites_files_outside (path : FPath)
    (ws : List (List String × String)) (fs : FS) (p : FPath)
    (hp : p ∉ ws.map (fun w => path ++ w.1)) :
    (applyCargoWrites path ws fs).files p = fs.files p := by
  induction ws generalizing fs with
  | nil => rfl
  | cons w ws ih =>
      simp only [List.map_cons, List.mem_cons, not_or] at hp
      show (applyCargoWrites path ws (fs.setFile (path ++ w.1) w.2)).files p = _
      rw [ih _ hp.2]
      simp [FS.setFile, hp.1]

theorem applyCargoWrites_dirs (path : FPath) (ws : List (List String × String))
    (fs : FS) : (applyCargoWrites path ws fs).dirs = fs.dirs := by
  induction ws generalizing fs with
  | nil => rfl
  | cons w ws ih =>
      show (applyCargoWrites path ws (fs.setFile (path ++ w.1) w.2)).dirs = _
      rw [ih]
      rfl

theorem rustFS_readme (cargo : CargoRun) (n d : String) (path : FPath) (fs : FS) :
    (rustFS cargo n d path fs).files (path ++ ["README.md"]) =
      some (readme_content n d "rust") := by
  simp [rustFS, FS.setFile, FS.markDirs]

theorem rustFS_files_outside (cargo : CargoRun) (n d : String) (path : FPath)
    (fs : FS) (p : FPath) (h1 : p ≠ path ++ ["README.md"])
    (h2 : p ∉ cargo.writes.map (fun w => path ++ w.1)) :
    (rustFS cargo n d path fs).files p = fs.files p := by
  simp only [rustFS, FS.setFile, FS.markDirs]
  simp only [h1, if_false]
  exact applyCargoWrites_files_outside path cargo.writes fs p h2

theorem rustFS_dirs_true (cargo : CargoRun) (n d : String) (path : FPath)
    (fs : FS) (q : FPath) (hq : fs.dirs q = true) :
    (rustFS cargo n d path fs).dirs q = true := by
  simp [rustFS, FS.setFile, FS.markDirs, applyCargoWrites_dirs, hq]

theorem containsStr_of_eq (s pre sub post : String)
    (h : s = pre ++ sub ++ post) : containsStr s sub :=
  ⟨pre.data, post.data, by rw [h]; rfl⟩

theorem readme_contains_name (n d t : String) :
    containsStr (readme_content n d t) n := by
  refine containsStr_of_eq _ "# " n
    ("\n\n" ++ d ++ "\n\n## Overview\n\nThis is a " ++ t ++
      " project created with the Project Generator tool.\n\n## Setup\n\n" ++
      (if t = "python" then python_readme_setup
       else if t = "rust" then rust_readme_setup else "")) ?_
  simp [readme_content, readme_base, String.append_assoc]

theorem readme_contains_desc (n d t : String) :
    containsStr (readme_content n d t) d := by
  refine containsStr_of_eq _ ("# " ++ n ++ "\n\n") d
    ("\n\n## Overview\n\nThis is a " ++ t ++
      " project created with the Project Generator tool.\n\n## Setup\n\n" ++
      (if t = "python" then python_readme_setup
       else if t = "rust" then rust_readme_setup else "")) ?_
  simp [readme_content, readme_base, String.append_assoc]

theorem setup_contains_name (n : String) : containsStr (setup_py_content n) n :=
  containsStr_of_eq _
    "from setuptools import setup, find_packages\n\nsetup(\n    name=\"" n
    "\",\n    version=\"0.1.0\",\n    packages=find_packages(where=\"src\"),\n    package_dir=\x7b\"\": \"src\"\x7d,\n    install_requires=[],\n    python_requires=\">=3.8\",\n)"
    rfl

theorem setup_contains_version (n : String) :
    containsStr (setup_py_content n) "0.1.0" := by
  refine containsStr_of_eq _
    ("from setuptools import setup, find_packages\n\nsetup(\n    name=\"" ++ n ++
      "\",\n    version=\"") "0.1.0"
    "\",\n    packages=find_packages(where=\"src\"),\n    package_dir=\x7b\"\": \"src\"\x7d,\n    install_requires=[],\n    python_requires=\">=3.8\",\n)" ?_
  show "from setuptools import setup, find_packages\n\nsetup(\n    name=\"" ++ n ++
      "\",\n    version=\"0.1.0\",\n    packages=find_packages(where=\"src\"),\n    package_dir=\x7b\"\": \"src\"\x7d,\n    install_requires=[],\n    python_requires=\">=3.8\",\n)" = _
  rw [show ("\",\n    version=\"0.1.0\",\n    packages=find_packages(where=\"src\"),\n    package_dir=\x7b\"\": \"src\"\x7d,\n    install_requires=[],\n    python_requires=\">=3.8\",\n)" : String) =
    "\",\n    version=\"" ++ ("0.1.0" ++
      "\",\n    packages=find_packages(where=\"src\"),\n    package_dir=\x7b\"\": \"src\"\x7d,\n    install_requires=[],\n    python_requires=\">=3.8\",\n)") from rfl]
  simp [String.append_assoc]

theorem test_stub_contains_import (n : String) :
    containsStr (test_stub_content n) ("from " ++ n ++ " import __version__") := by
  refine ⟨"import unittest\n".data,
    "\n\nclass Test".data ++ ((pyCapitalize n).data ++
      "(unittest.TestCase):\n    def test_version(self):\n        self.assertTrue(__version__)\n\nif __name__ == \x27__main__\x27:\n    unittest.main()\n".data), ?_⟩
  simp [test_stub_content, String.data_append, List.append_assoc]

theorem test_stub_contains_assert (n : String) :
    containsStr (test_stub_content n) "self.assertTrue(__version__)" := by
  refine containsStr_of_eq _
    ("import unittest\nfrom " ++ n ++ " import __version__\n\nclass Test" ++
      pyCapitalize n ++ "(unittest.TestCase):\n    def test_version(self):\n        ")
    "self.assertTrue(__version__)"
    "\n\nif __name__ == \x27__main__\x27:\n    unittest.main()\n" ?_
  show "import unittest\nfrom " ++ n ++ " import __version__\n\nclass Test" ++
      pyCapitalize n ++
      "(unittest.TestCase):\n    def test_version(self):\n        self.assertTrue(__version__)\n\nif __name__ == \x27__main__\x27:\n    unittest.main()\n" = _
  rw [show ("(unittest.TestCase):\n    def test_version(self):\n        self.assertTrue(__version__)\n\nif __name__ == \x27__main__\x27:\n    unittest.main()\n" : String) =
    "(unittest.TestCase):\n    def test_version(self):\n        " ++
      ("self.assertTrue(__version__)" ++
        "\n\nif __name__ == \x27__main__\x27:\n    unittest.main()\n") from rfl]
  simp [String.append_assoc]

/-! ### Claim theorems -/

/-- Claim C1, counterexample: the fetch step's URL for todo id `"123"` against
the default base URL is `.../api/todos/123`, not the `/api/tasks/` pattern the
specification states. -/
theorem fetch_url_counterexample :
    fetch_todo_url "http://localhost:8000" "123" =
      "http://localhost:8000/api/todos/123" ∧
    fetch_todo_url "http://localhost:8000" "123" ≠
      spec_fetch_task_url "http://localhost:8000" "123" := by
  constructor
  · rfl
  · decide

/-- Claim C1, amended: for every base URL and task id, the fetch operation's
request URL is the base followed by the fixed pattern `/api/todos/` and the
id — and it never equals the spec's `/api/tasks/` pattern for the same base
and id. -/
theorem fetch_url_pattern (base id : String) :
    fetch_todo_url base id = base ++ "/api/todos/" ++ id ∧
    fetch_todo_url base id ≠ spec_fetch_task_url base id := by
  refine ⟨rfl, ?_⟩
  intro h
  have hd := congrArg String.data h
  simp only [fetch_todo_url, spec_fetch_task_url, String.data_append,
    List.append_assoc] at hd
  have h2 := List.append_cancel_left hd
  injection h2 with c1 r1
  injection r1 with c2 r2
  injection r2 with c3 r3
  injection r3 with c4 r4
  injection r4 with c5 r5
  injection r5 with c6 r6
  injection r6 with c7 r7
  exact absurd c7 (by decide)

/-- Claim C2: for every specification and fault-free filesystem, the python
branch succeeds and creates exactly the seven relative artifacts — README.md,
requirements.txt holding the single comment line, the build manifest
embedding the name and version `"0.1.0"`, the two empty `__init__` markers,
the test stub importing `__version__` from the package and asserting its
truthiness, and the version file whose content is exactly
`__version__ = "0.1.0"` — and touches no other file. -/
theorem python_generation_artifacts (config : ProjectConfig) (F : Faults)
    (fs : FS) (hm : ∀ p, F.mkdirErr p = none) (hw : ∀ p, F.writeErr p = none) :
    ∃ fs', generate_python_project F config config.path fs = .ok fs' ∧
      fs'.files (config.path ++ ["README.md"]) =
        some (readme_content config.name config.description "python") ∧
      fs'.files (config.path ++ ["requirements.txt"]) =
        some "# Core dependencies\n" ∧
      fs'.files (config.path ++ ["setup.py"]) = some (setup_py_content config.name) ∧
      containsStr (setup_py_content config.name) config.name ∧
      containsStr (setup_py_content config.name) "0.1.0" ∧
      fs'.files (config.path ++ ["src", config.name, "__init__.py"]) = some "" ∧
      fs'.files (config.path ++ ["src", "tests", "__init__.py"]) = some "" ∧
      fs'.files (config.path ++ ["src", "tests", "test_" ++ config.name ++ ".py"]) =
        some (test_stub_content config.name) ∧
      containsStr (test_stub_content config.name)
        ("from " ++ config.name ++ " import __version__") ∧
      containsStr (test_stub_content config.name) "self.assertTrue(__version__)" ∧
      fs'.files (config.path ++ ["src", config.name, "__version__.py"]) =
        some "__version__ = \"0.1.0\"" ∧
      (∀ p, p ∉ python_artifact_paths config.name config.path →
        fs'.files p = fs.files p) := by
  exact ⟨pyFS config.name config.description config.path fs,
    gen_python_noFaults F config config.path fs hm hw,
    pyFS_readme config.name config.description config.path fs,
    pyFS_requirements config.name config.description config.path fs,
    pyFS_setup config.name config.description config.path fs,
    setup_contains_name config.name,
    setup_contains_version config.name,
    pyFS_name_init config.name config.description config.path fs,
    pyFS_tests_init config.name config.description config.path fs,
    pyFS_test_stub config.name config.description config.path fs,
    test_stub_contains_import config.name,
    test_stub_contains_assert config.name,
    pyFS_version config.name config.description config.path fs,
    fun p hp => pyFS_files_outside config.name config.description config.path fs p hp⟩

/-- Claim C3: for every rust-kind generation whose external initializer exits
non-zero, `generate_project` returns (it is a total function — no exception
escapes) a result with `success = false` whose single error entry is exactly
`"Failed to initialize Rust project: <captured stderr>"` and whose message
contains that text — in particular the captured stderr itself. -/
theorem rust_failure_reported (F : Faults) (cargo : CargoRun)
    (config : ProjectConfig) (fs : FS) (ht : config.project_type = .rust)
    (hz : cargo.exitCode ≠ 0) (hmk : F.mkdirErr config.path = none) :
    generate_project F cargo config fs =
      ({ success := false,
         message := "Failed to create project: " ++
           ("Failed to initialize Rust project: " ++ cargo.stderr),
         project_path := none,
         errors := some ["Failed to initialize Rust project: " ++ cargo.stderr] },
       fs.markDirs config.path) ∧
    containsStr (generate_project F cargo config fs).1.message
      ("Failed to initialize Rust project: " ++ cargo.stderr) ∧
    containsStr (generate_project F cargo config fs).1.message cargo.stderr := by
  obtain ⟨n, d, t, path, ad⟩ := config
  cases ht
  have hb : generate_body F cargo ⟨n, d, .rust, path, ad⟩ fs =
      .error ("Failed to initialize Rust project: " ++ cargo.stderr,
        fs.markDirs path) := by
    simp [generate_body, makedirs, hmk, Bind.bind, Except.bind,
      gen_rust_err F cargo ⟨n, d, .rust, path, ad⟩ path (fs.markDirs path) hz]
  rw [generate_project_err hb]
  refine ⟨rfl, ?_, ?_⟩
  · exact containsStr_of_eq _ "Failed to create project: "
      ("Failed to initialize Rust project: " ++ cargo.stderr) ""
      (by rw [String.append_empty])
  · exact containsStr_of_eq _
      "Failed to create project: Failed to initialize Rust project: "
      cargo.stderr ""
      (by rw [String.append_empty]; exact String.ext rfl)

/-- Claim C4: (1) whenever `generate_project` fails, its message is exactly
`"Failed to create project: "` followed by the exception text, its errors
sequence is exactly that one raw text, and no project path is set; (2) a
write fault on `requirements.txt` aborts a python generation with exactly
that shape while the two `__init__` markers written before the exception
remain on disk — no rollback. -/
theorem generation_failure_result :
    (∀ (F : Faults) (cargo : CargoRun) (config : ProjectConfig) (fs : FS),
      (generate_project F cargo config fs).1.success = false →
      ∃ e, (generate_project F cargo config fs).1.message =
          "Failed to create project: " ++ e ∧
        (generate_project F cargo config fs).1.errors = some [e] ∧
        (generate_project F cargo config fs).1.project_path = none) ∧
    (∀ (cargo : CargoRun) (name description : String) (path : FPath) (fs : FS),
      (generate_project (failWriteOn (path ++ ["requirements.txt"]) "disk full")
          cargo ⟨name, description, .python, path, none⟩ fs).1.success = false ∧
      (generate_project (failWriteOn (path ++ ["requirements.txt"]) "disk full")
          cargo ⟨name, description, .python, path, none⟩ fs).1.message =
        "Failed to create project: disk full" ∧
      (generate_project (failWriteOn (path ++ ["requirements.txt"]) "disk full")
          cargo ⟨name, description, .python, path, none⟩ fs).1.errors =
        some ["disk full"] ∧
      (generate_project (failWriteOn (path ++ ["requirements.txt"]) "disk full")
          cargo ⟨name, description, .python, path, none⟩ fs).2.files
          (path ++ ["src", name, "__init__.py"]) = some "" ∧
      (generate_project (failWriteOn (path ++ ["requirements.txt"]) "disk full")
          cargo ⟨name, description, .python, path, none⟩ fs).2.files
          (path ++ ["src", "tests", "__init__.py"]) = some "") := by
  constructor
  · intro F cargo config fs h
    cases hb : generate_body F cargo config fs with
    | ok fs2 => rw [generate_project_ok hb] at h; simp at h
    | error pe =>
        obtain ⟨e, fs2⟩ := pe
        rw [generate_project_err hb] at h ⊢
        exact ⟨e, rfl, rfl, rfl⟩
  · intro cargo name description path fs
    have hne1 : path ++ ["src", name, "__init__.py"] ≠ path ++ ["requirements.txt"] :=
      append_ne_append (by simp)
    have hne2 : path ++ ["src", "tests", "__init__.py"] ≠ path ++ ["requirements.txt"] :=
      append_ne_append (by simp)
    simp [generate_project, generate_body, generate_python_project, write_file,
      create_readme, makedirs, failWriteOn, hne1, hne2, Bind.bind, Except.bind,
      FS.setFile, FS.markDirs, List.append_assoc]

/-- Claim C5: every result of `generate_project` satisfies the outcome
invariant — on success the project path is set (to the target path) and no
errors are present; on failure no project path is set and the errors
sequence is present and non-empty.  Exactly one of the two optional fields
is populated per outcome. -/
theorem result_invariant (F : Faults) (cargo : CargoRun)
    (config : ProjectConfig) (fs : FS) :
    ((generate_project F cargo config fs).1.success = true →
      (generate_project F cargo config fs).1.project_path = some config.path ∧
      (generate_project F cargo config fs).1.errors = none) ∧
    ((generate_project F cargo config fs).1.success = false →
      (generate_project F cargo config fs).1.project_path = none ∧
      ∃ es, (generate_project F cargo config fs).1.errors = some es ∧ es ≠ []) := by
  cases hb : generate_body F cargo config fs with
  | ok fs2 =>
      rw [generate_project_ok hb]
      exact ⟨fun _ => ⟨rfl, rfl⟩, fun h => by simp at h⟩
  | error pe =>
      obtain ⟨e, fs2⟩ := pe
      rw [generate_project_err hb]
      exact ⟨fun h => by simp at h, fun _ => ⟨rfl, [e], rfl, by simp⟩⟩

/-- Claim C6: for every kind and every name and description strings, a
successful `generate_project` run leaves a `README.md` under the target path
whose content contains the name and the description byte-for-byte (as
contiguous character runs, with no escaping or truncation). -/
theorem readme_has_name_and_description (F : Faults) (cargo : CargoRun)
    (config : ProjectConfig) (fs : FS)
    (h : (generate_project F cargo config fs).1.success = true) :
    ∃ c, (generate_project F cargo config fs).2.files
        (config.path ++ ["README.md"]) = some c ∧
      containsStr c config.name ∧ containsStr c config.description := by
  obtain ⟨n, d, t, path, ad⟩ := config
  cases hb : generate_body F cargo ⟨n, d, t, path, ad⟩ fs with
  | error pe =>
      obtain ⟨e, fs2⟩ := pe
      rw [generate_project_err hb] at h
      simp at h
  | ok fs2 =>
      rw [generate_project_ok hb]
      unfold generate_body at hb
      obtain ⟨fs1, h1, h2⟩ := bind_ok hb
      have e1 := makedirs_ok h1
      subst e1
      cases t with
      | python =>
          have e2 := gen_python_ok h2
          subst e2
          exact ⟨_, pyFS_readme n d path _, readme_contains_name n d "python",
            readme_contains_desc n d "python"⟩
      | rust =>
          obtain ⟨hz, e2⟩ := gen_rust_ok h2
          subst e2
          exact ⟨_, rustFS_readme cargo n d path _,
            readme_contains_name n d "rust", readme_contains_desc n d "rust"⟩
      | common =>
          have e2 := gen_common_ok h2
          subst e2
          exact ⟨_, commonFS_readme n d path _,
            readme_contains_name n d "common", readme_contains_desc n d "common"⟩

/-- Claim C7: the response validation of `generate_from_todo` raises exactly
`"Failed to get function call response from Gemma"` when the function-call
envelope is absent, falsy, or lacks an `arguments` field; raises exactly
`"Invalid JSON response from Gemma function call"` when the arguments do not
decode; returns the decoded object unchanged otherwise; and the two error
messages are distinct. -/
theorem response_validation (J : Type) (decode : String → Option J)
    (resp : GemmaResponse) :
    ((resp.function_call = none ∨ resp.function_call = some [] ∨
        ∃ fc, resp.function_call = some fc ∧ fc.lookup "arguments" = none) →
      parse_gemma_response decode resp =
        .error "Failed to get function call response from Gemma") ∧
    (∀ fc args, resp.function_call = some fc → fc ≠ [] →
      fc.lookup "arguments" = some args → decode args = none →
      parse_gemma_response decode resp =
        .error "Invalid JSON response from Gemma function call") ∧
    (∀ fc args j, resp.function_call = some fc → fc ≠ [] →
      fc.lookup "arguments" = some args → decode args = some j →
      parse_gemma_response decode resp = .ok j) ∧
    ("Failed to get function call response from Gemma" ≠
      "Invalid JSON response from Gemma function call") := by
  refine ⟨?_, ?_, ?_, by decide⟩
  · rintro (h | h | ⟨fc, hfc, hlk⟩)
    · simp [parse_gemma_response, h]
    · simp [parse_gemma_response, h]
    · rcases fc with _ | ⟨kv, fc⟩
      · simp [parse_gemma_response, hfc]
      · simp [parse_gemma_response, hfc, hlk]
  · intro fc args hfc hne hlk hdec
    simp [parse_gemma_response, hfc, hne, hlk, hdec]
  · intro fc args j hfc hne hlk hdec
    simp [parse_gemma_response, hfc, hne, hlk, hdec]

/-- Claim C8: under a fault-free filesystem (and a successful initializer for
rust), `generate_project` succeeds for every kind regardless of what the
target directory already holds; every pre-existing file whose path is not
among the generated ones keeps its content; the target path and all its
ancestors exist afterwards; and no existing directory is removed. -/
theorem generation_additive (F : Faults) (cargo : CargoRun)
    (config : ProjectConfig) (fs : FS)
    (hm : ∀ p, F.mkdirErr p = none) (hw : ∀ p, F.writeErr p = none)
    (hz : config.project_type = .rust → cargo.exitCode = 0) :
    (generate_project F cargo config fs).1.success = true ∧
    (∀ p, p ∉ generated_file_paths config.project_type cargo config.name config.path →
      (generate_project F cargo config fs).2.files p = fs.files p) ∧
    (∀ q, q.isPrefixOf config.path = true →
      (generate_project F cargo config fs).2.dirs q = true) ∧
    (∀ q, fs.dirs q = true → (generate_project F cargo config fs).2.dirs q = true) := by
  obtain ⟨n, d, t, path, ad⟩ := config
  cases t with
  | python =>
      have hb : generate_body F cargo ⟨n, d, .python, path, ad⟩ fs =
          .ok (pyFS n d path (fs.markDirs path)) := by
        simp [generate_body, makedirs, hm, Bind.bind, Except.bind,
          gen_python_noFaults F ⟨n, d, .python, path, ad⟩ path (fs.markDirs path) hm hw]
      rw [generate_project_ok hb]
      refine ⟨rfl, ?_, ?_, ?_⟩
      · intro p hp
        exact pyFS_files_outside n d path (fs.markDirs path) p
          (by simpa [generated_file_paths] using hp)
      · intro q hq
        rw [ List.isPrefixOf_iff_prefix] at hq
        exact pyFS_dirs_true n d path _ q (by simp [FS.markDirs, hq])
      · intro q hq
        exact pyFS_dirs_true n d path _ q (by simp [FS.markDirs, hq])
  | rust =>
      have hz0 : cargo.exitCode = 0 := hz rfl
      have hb : generate_body F cargo ⟨n, d, .rust, path, ad⟩ fs =
          .ok (rustFS cargo n d path (fs.markDirs path)) := by
        simp [generate_body, makedirs, hm, Bind.bind, Except.bind,
          gen_rust_noFaults F cargo ⟨n, d, .rust, path, ad⟩ path (fs.markDirs path) hm hw hz0]
      rw [generate_project_ok hb]
      refine ⟨rfl, ?_, ?_, ?_⟩
      · intro p hp
        simp only [generated_file_paths, List.mem_append, List.mem_cons,
          List.not_mem_nil, or_false, not_or] at hp
        exact rustFS_files_outside cargo n d path (fs.markDirs path) p hp.2 hp.1
      · intro q hq
        rw [ List.isPrefixOf_iff_prefix] at hq
        exact rustFS_dirs_true cargo n d path _ q (by simp [FS.markDirs, hq])
      · intro q hq
        exact rustFS_dirs_true cargo n d path _ q (by simp [FS.markDirs, hq])
  | common =>
      have hb : generate_body F cargo ⟨n, d, .common, path, ad⟩ fs =
          .ok (commonFS n d path (fs.markDirs path)) := by
        simp [generate_body, makedirs, hm, Bind.bind, Except.bind,
          gen_common_noFaults F ⟨n, d, .common, path, ad⟩ path (fs.markDirs path) hm hw]
      rw [generate_project_ok hb]
      refine ⟨rfl, ?_, ?_, ?_⟩
      · intro p hp
        exact commonFS_files_outside n d path (fs.markDirs path) p
          (by simpa [generated_file_paths] using hp)
      · intro q hq
        rw [ List.isPrefixOf_iff_prefix] at hq
        exact commonFS_dirs_true n d path _ q (by simp [FS.markDirs, hq])
      · intro q hq
        exact commonFS_dirs_true n d path _ q (by simp [FS.markDirs, hq])

/-- Claim C9, code evaluated at the failing input: a description of `"!!!"`
slugs to the empty string, so the mock's placeholder name depends on the
process-salted `hash` — two different hash functions (two processes) yield
different names, hence different model-call outputs for the identical prompt
text.  The specification requires bit-for-bit determinism across processes. -/
theorem mock_client_process_dependent :
    mock_slug "!!!" = "" ∧
    (mock_call_gemma_function (fun _ => 0) demo_prompt).name =
      "generated-project-0" ∧
    (mock_call_gemma_function (fun _ => 1) demo_prompt).name =
      "generated-project-1" ∧
    mock_call_gemma_function (fun _ => 0) demo_prompt ≠
      mock_call_gemma_function (fun _ => 1) demo_prompt := by
  refine ⟨rfl, rfl, rfl, ?_⟩
  intro h
  have := congrArg MockFunctionArgs.name h
  simp only at this
  exact absurd this (by decide)

/-- Claim C10: the file-writing primitive overwrites — a successful
`_write_file` leaves exactly the new content at the target path and touches
no other file; consequently a python generation into a directory already
holding a `README.md` replaces that file's previous content entirely with
the generated README. -/
theorem write_file_overwrites :
    (∀ (F : Faults) (fs : FS) (p : FPath) (c : String) (fs' : FS),
      write_file F fs p c = .ok fs' →
      fs'.files p = some c ∧ ∀ q, q ≠ p → fs'.files q = fs.files q) ∧
    (∀ (F : Faults) (cargo : CargoRun) (config : ProjectConfig) (fs : FS)
      (old : String), config.project_type = .python →
      (∀ p, F.mkdirErr p = none) → (∀ p, F.writeErr p = none) →
      fs.files (config.path ++ ["README.md"]) = some old →
      (generate_project F cargo config fs).1.success = true ∧
      (generate_project F cargo config fs).2.files (config.path ++ ["README.md"]) =
        some (readme_content config.name config.description "python")) := by
  constructor
  · intro F fs p c fs' h
    have e := write_file_ok h
    subst e
    exact ⟨by simp [FS.setFile], fun q hq => by simp [FS.setFile, FS.markDirs, hq]⟩
  · intro F cargo config fs old ht hm hw hold
    obtain ⟨n, d, t, path, ad⟩ := config
    cases ht
    have hb : generate_body F cargo ⟨n, d, .python, path, ad⟩ fs =
        .ok (pyFS n d path (fs.markDirs path)) := by
      simp [generate_body, makedirs, hm, Bind.bind, Except.bind,
        gen_python_noFaults F ⟨n, d, .python, path, ad⟩ path (fs.markDirs path) hm hw]
    rw [generate_project_ok hb]
    exact ⟨rfl, pyFS_readme n d path _⟩

/-! ### Witnesses: the claim theorems evaluated at concrete inputs -/

/-- Witness for C2 at a concrete specification and the empty filesystem. -/
theorem python_generation_artifacts_witness :
    ∃ fs', generate_python_project noFaults
        ⟨"demo", "a demo project", .python, ["tmp"], none⟩ ["tmp"] emptyFS =
          .ok fs' ∧
      fs'.files ["tmp", "src", "demo", "__version__.py"] =
        some "__version__ = \"0.1.0\"" ∧
      fs'.files ["tmp", "requirements.txt"] = some "# Core dependencies\n" := by
  obtain ⟨fs', h1, h2⟩ :=
    python_generation_artifacts ⟨"demo", "a demo project", .python, ["tmp"], none⟩
      noFaults emptyFS (fun _ => rfl) (fun _ => rfl)
  exact ⟨fs', h1, h2.2.2.2.2.2.2.2.2.2.2.1, h2.2.1⟩

/-- Witness for C3: a concrete failing initializer run. -/
theorem rust_failure_reported_witness :
    generate_project noFaults ⟨101, "error: boom", []⟩
        ⟨"rp", "a rust project", .rust, ["tmp"], none⟩ emptyFS =
      ({ success := false,
         message := "Failed to create project: Failed to initialize Rust project: error: boom",
         project_path := none,
         errors := some ["Failed to initialize Rust project: error: boom"] },
       emptyFS.markDirs ["tmp"]) :=
  (rust_failure_reported noFaults ⟨101, "error: boom", []⟩
    ⟨"rp", "a rust project", .rust, ["tmp"], none⟩ emptyFS rfl (by decide) rfl).1

/-- Witness for C4: a concrete failing run, checked against the failure
shape. -/
theorem generation_failure_result_witness :
    ∃ e, (generate_project (failWriteOn ["tmp", "requirements.txt"] "disk full")
        ⟨0, "", []⟩ ⟨"npkg", "d", .python, ["tmp"], none⟩ emptyFS).1.message =
          "Failed to create project: " ++ e ∧
      (generate_project (failWriteOn ["tmp", "requirements.txt"] "disk full")
        ⟨0, "", []⟩ ⟨"npkg", "d", .python, ["tmp"], none⟩ emptyFS).1.errors =
          some [e] ∧
      (generate_project (failWriteOn ["tmp", "requirements.txt"] "disk full")
        ⟨0, "", []⟩ ⟨"npkg", "d", .python, ["tmp"], none⟩ emptyFS).1.project_path =
          none :=
  generation_failure_result.1 (failWriteOn ["tmp", "requirements.txt"] "disk full")
    ⟨0, "", []⟩ ⟨"npkg", "d", .python, ["tmp"], none⟩ emptyFS (by decide)

/-- Witness for C5 on a concrete successful run. -/
theorem result_invariant_witness :
    (generate_project noFaults ⟨0, "", []⟩ ⟨"w", "d", .common, ["tmp"], none⟩
        emptyFS).1.project_path = some ["tmp"] ∧
    (generate_project noFaults ⟨0, "", []⟩ ⟨"w", "d", .common, ["tmp"], none⟩
        emptyFS).1.errors = none :=
  (result_invariant noFaults ⟨0, "", []⟩ ⟨"w", "d", .common, ["tmp"], none⟩
    emptyFS).1 rfl

/-- Witness for C6 on a concrete successful run. -/
theorem readme_has_name_and_description_witness :
    ∃ c, (generate_project noFaults ⟨0, "", []⟩
        ⟨"wit-proj", "crisp description", .common, ["tmp"], none⟩
        emptyFS).2.files ["tmp", "README.md"] = some c ∧
      containsStr c "wit-proj" ∧ containsStr c "crisp description" :=
  readme_has_name_and_description noFaults ⟨0, "", []⟩
    ⟨"wit-proj", "crisp description", .common, ["tmp"], none⟩ emptyFS rfl

/-- Witness for C7 on concrete responses for all three validation outcomes. -/
theorem response_validation_witness :
    parse_gemma_response (fun _ => some 42) ⟨none⟩ =
      (.error "Failed to get function call response from Gemma" : Except String Nat) ∧
    parse_gemma_response (fun _ => (none : Option Nat))
      ⟨some [("arguments", "not json")]⟩ =
      .error "Invalid JSON response from Gemma function call" ∧
    parse_gemma_response (fun _ => some 7) ⟨some [("arguments", "42")]⟩ = .ok 7 := by
  refine ⟨(response_validation Nat (fun _ => some 42) ⟨none⟩).1 (Or.inl rfl), ?_, ?_⟩
  · exact (response_validation Nat (fun _ => none)
      ⟨some [("arguments", "not json")]⟩).2.1 [("arguments", "not json")]
      "not json" rfl (by decide) rfl rfl
  · exact (response_validation Nat (fun _ => some 7)
      ⟨some [("arguments", "42")]⟩).2.2.1 [("arguments", "42")] "42" 7 rfl
      (by decide) rfl rfl

/-- Witness for C8: a target directory already holding an unrelated file
keeps it, and the target path exists afterwards. -/
theorem generation_additive_witness :
    (generate_project noFaults ⟨0, "", []⟩ ⟨"w", "d", .python, ["base", "proj"], none⟩
        (emptyFS.setFile ["base", "unrelated.txt"] "keep me")).1.success = true ∧
    (generate_project noFaults ⟨0, "", []⟩ ⟨"w", "d", .python, ["base", "proj"], none⟩
        (emptyFS.setFile ["base", "unrelated.txt"] "keep me")).2.files
        ["base", "unrelated.txt"] = some "keep me" ∧
    (generate_project noFaults ⟨0, "", []⟩ ⟨"w", "d", .python, ["base", "proj"], none⟩
        (emptyFS.setFile ["base", "unrelated.txt"] "keep me")).2.dirs ["base"] = true := by
  have h := generation_additive noFaults ⟨0, "", []⟩
    ⟨"w", "d", .python, ["base", "proj"], none⟩
    (emptyFS.setFile ["base", "unrelated.txt"] "keep me")
    (fun _ => rfl) (fun _ => rfl) (fun ht => nomatch ht)
  refine ⟨h.1, ?_, h.2.2.1 ["base"] (by decide)⟩
  have h2 := h.2.1 ["base", "unrelated.txt"] (by decide)
  rw [h2]
  rfl

/-- Witness for C10: overwriting a pre-existing `README.md`. -/
theorem write_file_overwrites_witness :
    (∃ fs', write_file noFaults (emptyFS.setFile ["t", "README.md"] "OLD")
        ["t", "README.md"] "NEW" = .ok fs' ∧
      fs'.files ["t", "README.md"] = some "NEW") ∧
    (generate_project noFaults ⟨0, "", []⟩ ⟨"w", "d", .python, ["t"], none⟩
        (emptyFS.setFile ["t", "README.md"] "OLD")).2.files ["t", "README.md"] =
      some (readme_content "w" "d" "python") := by
  constructor
  · exact ⟨_, rfl,
      (write_file_overwrites.1 noFaults (emptyFS.setFile ["t", "README.md"] "OLD")
        ["t", "README.md"] "NEW" _ rfl).1⟩
  · exact (write_file_overwrites.2 noFaults ⟨0, "", []⟩
      ⟨"w", "d", .python, ["t"], none⟩
      (emptyFS.setFile ["t", "README.md"] "OLD") "OLD" rfl (fun _ => rfl)
      (fun _ => rfl) rfl).2

end Spindlewrit
